import Mathlib

/-!
Verification development for the CinemaPulse review application
(`src/app.py`): a shallow embedding of the statistics aggregator,
recommendation engine and analytics reporter, together with theorems
settling the specification claims about them.

Modelling conventions:
* DynamoDB tables are embedded as Lean lists inside a `DB` state record.
* `db.awsAvailable` models the startup flag `AWS_AVAILABLE`; when it is
  `false` every table object (`MOVIES_TABLE_OBJ`, ...) is `None` in the
  Python code, which is how the code itself ties them together
  (`get_table` returns `None` whenever `AWS_AVAILABLE` is false).
* `db.moviesReachable` / `db.usersReachable` / `db.reviewsReachable`
  model per-table runtime storage failures: a raised `ClientError` that
  the `safe_dynamodb_*` wrappers catch, returning empty scan results or
  `False` from writes.  Reads of an unreachable table yield `[]`,
  writes to it fail and leave the state unchanged.
* Python floats are embedded as rationals (`ℚ`); ratings are the
  integers the code stores (`int(rating)`), embedded as `Nat`.
* `round(x, 2)` is embedded as `round2` below.  (At exact half-way
  points Python's float `round` is round-half-to-even while `round2`
  rounds half up; no claim in this development depends on the tie
  rule, only on "rounded to 2 decimal places".)
* `datetime.now().isoformat()` timestamps are nondeterministic inputs;
  they are passed in as explicit `String` arguments where the code
  generates them, and the seed catalog omits its `created_at` /
  `last_updated` fields (they are never read by the core logic).
* Display-only movie fields (`description`, `director`, `image_url`)
  are omitted from the `Movie` record: they never influence control
  flow, and record equality (used by `m not in recommendations`) is
  already decided by the remaining fields whenever `movie_id` values
  are distinct.
* The SNS notification side channel and logging are ignored: they do
  not affect any stored data or return value.
-/

namespace CinemaPulse

/-- Movie record, from the `movies` table items of `src/app.py`. -/
structure Movie where
  movie_id : String
  title : String
  genre : String
  release_year : Nat
  total_reviews : Nat
  avg_rating : ℚ
  active : Bool
deriving DecidableEq, Repr

/-- User record, from the `users` table items of `src/app.py`
(`password_hash` and `created_at` are opaque strings never read by the
aggregation logic and are omitted). -/
structure User where
  email : String
  name : String
  total_reviews : Nat
  avg_rating : ℚ
  last_review_date : String
  is_active : Bool
deriving DecidableEq, Repr

/-- Review record, from the `reviews` table items (`submit_review`). -/
structure Review where
  review_id : String
  user_email : String
  movie_id : String
  name : String
  rating : Nat
  feedback : String
  created_at : String
  display_date : String
deriving DecidableEq, Repr

/-- A review after the enrichment loop of `get_user_reviews`, which may
add `movie_title` / `movie_genre` keys (`none` models an absent key). -/
structure EReview extends Review where
  movie_genre : Option String
  movie_title : Option String
deriving DecidableEq, Repr

/-- The seed catalog `MOVIES_INITIAL_DATA` of `src/app.py` (display-only
fields and the nondeterministic timestamps omitted, see the header). -/
def MOVIES_INITIAL_DATA : List Movie :=
  [ { movie_id := "movie_001", title := "The Quantum Paradox", genre := "Sci-Fi",
      release_year := 2024, total_reviews := 0, avg_rating := 0, active := true },
    { movie_id := "movie_002", title := "Echoes of Tomorrow", genre := "Drama",
      release_year := 2025, total_reviews := 0, avg_rating := 0, active := true },
    { movie_id := "movie_003", title := "Shadow Protocol", genre := "Action",
      release_year := 2025, total_reviews := 0, avg_rating := 0, active := true },
    { movie_id := "movie_004", title := "The Last Symphony", genre := "Drama",
      release_year := 2024, total_reviews := 0, avg_rating := 0, active := true },
    { movie_id := "movie_005", title := "Neon City", genre := "Sci-Fi",
      release_year := 2026, total_reviews := 0, avg_rating := 0, active := true },
    { movie_id := "movie_006", title := "Desert Storm", genre := "Thriller",
      release_year := 2025, total_reviews := 0, avg_rating := 0, active := true },
    { movie_id := "movie_007", title := "Midnight Racing", genre := "Action",
      release_year := 2025, total_reviews := 0, avg_rating := 0, active := true },
    { movie_id := "movie_008", title := "The Forgotten Island", genre := "Adventure",
      release_year := 2024, total_reviews := 0, avg_rating := 0, active := true } ]

/-- The storage state: the three DynamoDB tables plus the availability
flags described in the file header. -/
structure DB where
  awsAvailable : Bool
  moviesReachable : Bool
  usersReachable : Bool
  reviewsReachable : Bool
  movies : List Movie
  users : List User
  reviews : List Review
deriving DecidableEq, Repr

/-- A fully healthy storage state over the given table contents. -/
def DB.healthy (movies : List Movie) (users : List User) (reviews : List Review) : DB :=
  { awsAvailable := true, moviesReachable := true, usersReachable := true,
    reviewsReachable := true, movies := movies, users := users, reviews := reviews }

/-! ### Sorting relations

Python's `list.sort(key=k, reverse=True)` is a stable sort that orders
by `k` descending and keeps elements with equal keys in their original
relative order.  `List.insertionSort` with the reflexive total preorder
`fun a b => k b ≤ k a` has exactly these semantics: it is a stable sort
(it inserts each element before all elements it ties with that
originally came after it) producing the keys in descending order. -/

/-- Order used by `reviews.sort(key=lambda x: x.created_at, reverse=True)`. -/
def createdDesc (a b : Review) : Prop := b.created_at ≤ a.created_at

instance : DecidableRel createdDesc :=
  fun a b => inferInstanceAs (Decidable (b.created_at ≤ a.created_at))

instance : IsTotal Review createdDesc := ⟨fun a b => le_total b.created_at a.created_at⟩

instance : IsTrans Review createdDesc := ⟨fun _ _ _ hab hbc => le_trans hbc hab⟩

/-- Order used by `sort(key=lambda x: x.get('avg_rating', 0), reverse=True)`. -/
def avgDesc (a b : Movie) : Prop := b.avg_rating ≤ a.avg_rating

instance : DecidableRel avgDesc :=
  fun a b => inferInstanceAs (Decidable (b.avg_rating ≤ a.avg_rating))

instance : IsTotal Movie avgDesc := ⟨fun a b => le_total b.avg_rating a.avg_rating⟩

instance : IsTrans Movie avgDesc := ⟨fun _ _ _ hab hbc => le_trans hbc hab⟩

/-- Popularity-weighted score `avg_rating * total_reviews` used by the
`top_movies` listing of the `/analytics` route.  (The route computes
`x.get('avg_rating', 0) * x.get('total_reviews', 0) or 0`; the `or 0`
maps a `0.0` product to the integer `0`, which is numerically the same
value.) -/
def score (m : Movie) : ℚ := m.avg_rating * m.total_reviews

/-- Order used by the `top_movies` sort of the `/analytics` route. -/
def scoreDesc (a b : Movie) : Prop := score b ≤ score a

instance : DecidableRel scoreDesc :=
  fun a b => inferInstanceAs (Decidable (score b ≤ score a))

instance : IsTotal Movie scoreDesc := ⟨fun a b => le_total (score b) (score a)⟩

instance : IsTrans Movie scoreDesc := ⟨fun _ _ _ hab hbc => le_trans hbc hab⟩

def sortReviewsDesc (l : List Review) : List Review := List.insertionSort createdDesc l

def sortByAvgDesc (l : List Movie) : List Movie := List.insertionSort avgDesc l

def sortByScoreDesc (l : List Movie) : List Movie := List.insertionSort scoreDesc l

/-! ### Storage accessors -/

/-- Embedding of `get_all_movies`: with no table object the seed data is
returned as a display fallback; otherwise a scan filtered on
`active = true` (an unreachable store makes the safe scan return no
items). -/
def getAllMovies (db : DB) : List Movie :=
  if ¬ db.awsAvailable then MOVIES_INITIAL_DATA
  else if ¬ db.moviesReachable then []
  else db.movies.filter (fun m => m.active)

/-- Embedding of `get_movie_reviews(movie_id, limit=50)`: scan filtered
on `movie_id`, sorted by `created_at` descending, truncated to `limit`. -/
def getMovieReviews (db : DB) (movie_id : String) (limit : Nat := 50) : List Review :=
  if ¬ db.awsAvailable then []
  else
    let items := if db.reviewsReachable
      then db.reviews.filter (fun r => r.movie_id == movie_id) else []
    (sortReviewsDesc items).take limit

/-- Enrichment step of `get_user_reviews`: the first movie of the
catalog scan whose `movie_id` matches supplies `movie_title` /
`movie_genre`; with no match the keys stay absent. -/
def enrich (movies : List Movie) (r : Review) : EReview :=
  match movies.find? (fun m => r.movie_id == m.movie_id) with
  | some m => { toReview := r, movie_genre := some m.genre, movie_title := some m.title }
  | none => { toReview := r, movie_genre := none, movie_title := none }

/-- Embedding of `get_user_reviews(email)`: scan filtered on
`user_email`, sorted by `created_at` descending (no truncation), each
review enriched with the reviewed movie's catalog data. -/
def getUserReviews (db : DB) (email : String) : List EReview :=
  if ¬ db.awsAvailable then []
  else
    let items := if db.reviewsReachable
      then db.reviews.filter (fun r => r.user_email == email) else []
    (sortReviewsDesc items).map (enrich (getAllMovies db))

/-- Embedding of Python's `round(x, 2)` (see the header note on the
half-way tie rule). -/
def round2 (q : ℚ) : ℚ := (round (q * 100) : ℤ) / 100

/-! ### Statistics aggregator -/

/-- Embedding of `update_movie_stats(movie_id)`: recompute
`total_reviews` / `avg_rating` from `get_movie_reviews(movie_id)`
(default `limit=50`) and write them onto the movie record.  The `Bool`
is the function's return value; a failed write leaves the state
unchanged.  (`last_updated` is a nondeterministic timestamp never read
by the core logic; the omitted movie fields do not model it.) -/
def updateMovieStats (db : DB) (movie_id : String) : Bool × DB :=
  if ¬ db.awsAvailable then (false, db)
  else
    let reviews := getMovieReviews db movie_id 50
    let total := reviews.length
    let avg : ℚ := if 0 < total then (reviews.map (fun r => (r.rating : ℚ))).sum / total else 0
    if ¬ db.moviesReachable then (false, db)
    else
      (true, { db with movies := db.movies.map (fun m =>
        if m.movie_id == movie_id then
          { m with total_reviews := total, avg_rating := round2 avg }
        else m) })

/-- Embedding of `update_user_stats(email)`: recompute
`total_reviews` / `avg_rating` / `last_review_date` from
`get_user_reviews(email)` and write them onto the user record.
`Python` takes `max(...)` over a nonempty generator; folding `max` from
`""` computes the same maximum because `""` is the least string. -/
def updateUserStats (db : DB) (email : String) : Bool × DB :=
  if ¬ db.awsAvailable then (false, db)
  else
    let reviews := getUserReviews db email
    let total := reviews.length
    let avg : ℚ := if 0 < total then (reviews.map (fun r => (r.rating : ℚ))).sum / total else 0
    let last : String := if 0 < total
      then (reviews.map (fun r => r.created_at)).foldl max "" else ""
    if ¬ db.usersReachable then (false, db)
    else
      (true, { db with users := db.users.map (fun u =>
        if u.email == email then
          { u with total_reviews := total, avg_rating := round2 avg, last_review_date := last }
        else u) })

/-- Embedding of `submit_review`: write the new review record, then
synchronously recompute movie stats and user stats (their return
values are ignored), then return `True`.  The nondeterministic
`uuid` / timestamp values are explicit arguments. -/
def submitReview (db : DB) (name email movie_id : String) (rating : Nat)
    (feedback review_id created_at display_date : String) : Bool × DB :=
  if ¬ db.awsAvailable then (false, db)
  else
    let newReview : Review :=
      { review_id := review_id, user_email := email, movie_id := movie_id,
        name := name, rating := rating, feedback := feedback,
        created_at := created_at, display_date := display_date }
    if ¬ db.reviewsReachable then (false, db)
    else
      let db1 := { db with reviews := db.reviews ++ [newReview] }
      let db2 := (updateMovieStats db1 movie_id).2
      let db3 := (updateUserStats db2 email).2
      (true, db3)

/-! ### Recommendation engine -/

/-- Genre a review's rating is attributed to:
`review.get('movie_genre', 'Unknown')`. -/
def genreOf (r : EReview) : String := r.movie_genre.getD "Unknown"

/-- Keys of the `genre_ratings` dict in first-insertion order. -/
def genreKeys (reviews : List EReview) : List String :=
  reviews.foldl (fun acc r => if genreOf r ∈ acc then acc else acc ++ [genreOf r]) []

/-- The ratings list `genre_ratings[g]`: the user's ratings attributed
to genre `g`, in review-iteration order. -/
def genreRatingsOf (reviews : List EReview) (g : String) : List Nat :=
  (reviews.filter (fun r => genreOf r == g)).map (fun r => r.rating)

/-- Mean of a ratings list as the code computes it
(`sum(ratings) / len(ratings)`). -/
def meanRating (ratings : List Nat) : ℚ :=
  (ratings.map (fun n => ((n : Nat) : ℚ))).sum / ratings.length

/-- The `favorite_genres` list of `get_recommendations`: genres of the
`genre_ratings` dict whose mean rating is at least 4. -/
def favoriteGenres (reviews : List EReview) : List String :=
  (genreKeys reviews).filter (fun g => decide (4 ≤ meanRating (genreRatingsOf reviews g)))

/-- The `rated_movie_ids` set (embedded as a list, used only through
membership). -/
def ratedMovieIds (reviews : List EReview) : List String :=
  reviews.map (fun r => r.movie_id)

/-- The cold-start branch of `get_recommendations`: with no user
reviews, `sorted(all_movies, key=avg_rating, reverse=True)[:limit]`. -/
def coldStartRecs (db : DB) (limit : Nat) : List Movie :=
  (sortByAvgDesc (getAllMovies db)).take limit

/-- The sorted `recommendations` list of `get_recommendations`: unseen
movies whose genre is a favorite genre, by `avg_rating` descending. -/
def primaryRecs (db : DB) (email : String) : List Movie :=
  sortByAvgDesc ((getAllMovies db).filter (fun m =>
    decide (m.movie_id ∉ ratedMovieIds (getUserReviews db email)) &&
    decide (m.genre ∈ favoriteGenres (getUserReviews db email))))

/-- The sorted `other_movies` list of `get_recommendations`: unseen
movies not already among the primary candidates, by `avg_rating`
descending. -/
def fillRecs (db : DB) (email : String) : List Movie :=
  sortByAvgDesc ((getAllMovies db).filter (fun m =>
    decide (m.movie_id ∉ ratedMovieIds (getUserReviews db email)) &&
    decide (m ∉ primaryRecs db email)))

/-- Embedding of `get_recommendations(email, limit=5)`; the Python
local variables become the named definitions above.  The wrapping
`try/except` of the Python code catches storage exceptions already
swallowed by the safe accessors embedded above, so no separate failure
branch exists in the model. -/
def getRecommendations (db : DB) (email : String) (limit : Nat := 5) : List Movie :=
  if (getUserReviews db email).isEmpty then coldStartRecs db limit
  else
    let recs := primaryRecs db email
    let recs2 :=
      if recs.length < limit then
        recs ++ (fillRecs db email).take (limit - recs.length)
      else recs
    recs2.take limit

/-! ### Analytics reporter -/

/-- Embedding of `get_total_reviews_count`: a raw scan of the reviews
table; any failure path returns 0 through the `except` clause. -/
def getTotalReviewsCount (db : DB) : Nat :=
  if ¬ db.awsAvailable then 0
  else if ¬ db.reviewsReachable then 0
  else db.reviews.length

/-- The `top_movies` listing of the `/analytics` route:
`sorted(all_movies, key=score, reverse=True)[:limit]`.  The route
instantiates `limit := 6`. -/
def topMoviesListing (db : DB) (limit : Nat) : List Movie :=
  (sortByScoreDesc (getAllMovies db)).take limit

/-! ### Claim-side review sets

The claims quantify over "the set of reviews whose `movie_id` /
`user_email` matches"; these name that set (it is also exactly what
the DynamoDB `FilterExpression` scans of the code select). -/

/-- All stored reviews whose `movie_id` matches. -/
def movieReviewsOf (db : DB) (movie_id : String) : List Review :=
  db.reviews.filter (fun r => r.movie_id == movie_id)

/-- All stored reviews whose `user_email` matches. -/
def userReviewsOf (db : DB) (email : String) : List Review :=
  db.reviews.filter (fun r => r.user_email == email)

/-- Maximum `created_at` over a review list, the empty string for an
empty list (folding `max` from `""` computes the maximum of a nonempty
string list because `""` is the least string). -/
def maxCreatedAt (l : List Review) : String :=
  (l.map (fun r => r.created_at)).foldl max ""

/-! ### Helper lemmas -/

theorem sortReviewsDesc_perm (l : List Review) : (sortReviewsDesc l).Perm l :=
  List.perm_insertionSort _ _

theorem sortByAvgDesc_perm (l : List Movie) : (sortByAvgDesc l).Perm l :=
  List.perm_insertionSort _ _

theorem sortByScoreDesc_perm (l : List Movie) : (sortByScoreDesc l).Perm l :=
  List.perm_insertionSort _ _

theorem length_sortReviewsDesc (l : List Review) : (sortReviewsDesc l).length = l.length :=
  List.length_insertionSort _ _

theorem length_sortByAvgDesc (l : List Movie) : (sortByAvgDesc l).length = l.length :=
  List.length_insertionSort _ _

theorem mem_sortByAvgDesc {l : List Movie} {m : Movie} : m ∈ sortByAvgDesc l ↔ m ∈ l :=
  List.mem_insertionSort _

theorem sorted_sortByAvgDesc (l : List Movie) : (sortByAvgDesc l).Sorted avgDesc :=
  List.sorted_insertionSort _ _

theorem sorted_sortByScoreDesc (l : List Movie) : (sortByScoreDesc l).Sorted scoreDesc :=
  List.sorted_insertionSort _ _

theorem empty_string_le (s : String) : "" ≤ s := by
  rw [String.le_iff_toList_le]
  exact List.nil_le

theorem le_foldl_max (l : List String) (a : String) : a ≤ l.foldl max a := by
  induction l generalizing a with
  | nil => exact le_refl a
  | cons b t ih => exact le_trans (le_max_left a b) (ih (max a b))

theorem mem_le_foldl_max {l : List String} {x : String} (hx : x ∈ l) (a : String) :
    x ≤ l.foldl max a := by
  induction l generalizing a with
  | nil => cases hx
  | cons b t ih =>
    rcases List.mem_cons.mp hx with h | h
    · subst h
      exact le_trans (le_max_right a x) (le_foldl_max t _)
    · exact ih h _

theorem foldl_max_mem (l : List String) (a : String) :
    l.foldl max a = a ∨ l.foldl max a ∈ l := by
  induction l generalizing a with
  | nil => exact Or.inl rfl
  | cons b t ih =>
    rcases ih (max a b) with h | h
    · rcases max_choice a b with hc | hc
      · exact Or.inl (by rw [List.foldl_cons, h, hc])
      · exact Or.inr (by rw [List.foldl_cons, h, hc]; exact List.mem_cons_self b t)
    · exact Or.inr (List.mem_cons_of_mem _ h)

theorem foldl_max_perm {l1 l2 : List String} (h : l1.Perm l2) :
    l1.foldl max "" = l2.foldl max "" := by
  apply le_antisymm
  · rcases foldl_max_mem l1 "" with he | hm
    · rw [he]
      exact le_foldl_max l2 ""
    · exact mem_le_foldl_max (h.mem_iff.mp hm) ""
  · rcases foldl_max_mem l2 "" with he | hm
    · rw [he]
      exact le_foldl_max l1 ""
    · exact mem_le_foldl_max (h.mem_iff.mpr hm) ""

theorem enrich_toReview (movies : List Movie) (r : Review) :
    (enrich movies r).toReview = r := by
  cases hf : movies.find? (fun m => r.movie_id == m.movie_id) <;> simp [enrich, hf]

theorem mem_genreKeys_loop (l : List EReview) (acc : List String) (g : String) :
    g ∈ l.foldl (fun acc r => if genreOf r ∈ acc then acc else acc ++ [genreOf r]) acc ↔
      g ∈ acc ∨ ∃ r ∈ l, genreOf r = g := by
  induction l generalizing acc with
  | nil => simp
  | cons r t ih =>
    rw [List.foldl_cons, ih]
    by_cases hm : genreOf r ∈ acc
    · rw [if_pos hm]
      constructor
      · rintro (h | ⟨x, hx, hgx⟩)
        · exact Or.inl h
        · exact Or.inr ⟨x, List.mem_cons_of_mem r hx, hgx⟩
      · rintro (h | ⟨x, hx, hgx⟩)
        · exact Or.inl h
        · rcases List.mem_cons.mp hx with hx | hx
          · subst hx
            exact Or.inl (hgx ▸ hm)
          · exact Or.inr ⟨x, hx, hgx⟩
    · rw [if_neg hm]
      constructor
      · rintro (h | ⟨x, hx, hgx⟩)
        · rcases List.mem_append.mp h with h | h
          · exact Or.inl h
          · exact Or.inr ⟨r, List.mem_cons_self r t, (List.mem_singleton.mp h).symm⟩
        · exact Or.inr ⟨x, List.mem_cons_of_mem r hx, hgx⟩
      · rintro (h | ⟨x, hx, hgx⟩)
        · exact Or.inl (List.mem_append.mpr (Or.inl h))
        · rcases List.mem_cons.mp hx with hx | hx
          · subst hx
            exact Or.inl (List.mem_append.mpr (Or.inr (List.mem_singleton.mpr hgx.symm)))
          · exact Or.inr ⟨x, hx, hgx⟩

theorem mem_genreKeys {reviews : List EReview} {g : String} :
    g ∈ genreKeys reviews ↔ ∃ r ∈ reviews, genreOf r = g := by
  rw [genreKeys, mem_genreKeys_loop]
  simp

theorem genreRatingsOf_ne_nil {reviews : List EReview} {g : String} :
    genreRatingsOf reviews g ≠ [] ↔ ∃ r ∈ reviews, genreOf r = g := by
  rw [genreRatingsOf]
  simp [List.filter_eq_nil_iff]

theorem mem_favoriteGenres {reviews : List EReview} {g : String} :
    g ∈ favoriteGenres reviews ↔
      (∃ r ∈ reviews, genreOf r = g) ∧ 4 ≤ meanRating (genreRatingsOf reviews g) := by
  rw [favoriteGenres, List.mem_filter, mem_genreKeys]
  simp

theorem sortByAvgDesc_filter_avg (l : List Movie) (q : ℚ) :
    (sortByAvgDesc l).filter (fun m => m.avg_rating == q) =
      l.filter (fun m => m.avg_rating == q) := by
  induction l with
  | nil => rfl
  | cons a t ih =>
    have hstep : sortByAvgDesc (a :: t) =
        ((sortByAvgDesc t).takeWhile (fun b => decide ¬avgDesc a b)) ++
          a :: ((sortByAvgDesc t).dropWhile (fun b => decide ¬avgDesc a b)) :=
      List.orderedInsert_eq_take_drop avgDesc a (sortByAvgDesc t)
    have htw : ∀ b ∈ (sortByAvgDesc t).takeWhile (fun b => decide ¬avgDesc a b),
        a.avg_rating < b.avg_rating := by
      intro b hb
      have := List.mem_takeWhile_imp hb
      simp only [decide_eq_true_eq, avgDesc] at this
      exact lt_of_not_le this
    have hsplit : (sortByAvgDesc t).takeWhile (fun b => decide ¬avgDesc a b) ++
        (sortByAvgDesc t).dropWhile (fun b => decide ¬avgDesc a b) = sortByAvgDesc t :=
      List.takeWhile_append_dropWhile _ _
    by_cases hq : a.avg_rating = q
    · have hnil : ((sortByAvgDesc t).takeWhile
          (fun b => decide ¬avgDesc a b)).filter (fun m => m.avg_rating == q) = [] := by
        rw [List.filter_eq_nil_iff]
        intro b hb
        have hlt := htw b hb
        simp only [beq_iff_eq]
        intro hbq
        rw [hbq, hq] at hlt
        exact lt_irrefl q hlt
      have hfsplit : ((sortByAvgDesc t).takeWhile
            (fun b => decide ¬avgDesc a b)).filter (fun m => m.avg_rating == q) ++
          ((sortByAvgDesc t).dropWhile
            (fun b => decide ¬avgDesc a b)).filter (fun m => m.avg_rating == q) =
          (sortByAvgDesc t).filter (fun m => m.avg_rating == q) := by
        rw [← List.filter_append, hsplit]
      rw [hstep, List.filter_append]
      rw [hnil, List.nil_append] at hfsplit ⊢
      rw [List.filter_cons_of_pos (by simp [hq]), hfsplit, ih,
        List.filter_cons_of_pos (by simp [hq])]
    · rw [hstep, List.filter_append, List.filter_cons_of_neg (by simp [hq]),
        ← List.filter_append, hsplit, ih, List.filter_cons_of_neg (by simp [hq])]

theorem getAllMovies_eq {db : DB} (haws : db.awsAvailable = true)
    (hmr : db.moviesReachable = true) :
    getAllMovies db = db.movies.filter (fun m => m.active) := by
  simp [getAllMovies, haws, hmr]

theorem getMovieReviews_eq {db : DB} (movie_id : String) (limit : Nat)
    (haws : db.awsAvailable = true) (hrr : db.reviewsReachable = true) :
    getMovieReviews db movie_id limit =
      (sortReviewsDesc (movieReviewsOf db movie_id)).take limit := by
  simp [getMovieReviews, movieReviewsOf, haws, hrr]

theorem getUserReviews_eq {db : DB} (email : String)
    (haws : db.awsAvailable = true) (hrr : db.reviewsReachable = true) :
    getUserReviews db email =
      (sortReviewsDesc (userReviewsOf db email)).map (enrich (getAllMovies db)) := by
  simp [getUserReviews, userReviewsOf, haws, hrr]

theorem getUserReviews_eq_nil_iff {db : DB} (email : String)
    (haws : db.awsAvailable = true) (hrr : db.reviewsReachable = true) :
    getUserReviews db email = [] ↔ userReviewsOf db email = [] := by
  rw [getUserReviews_eq email haws hrr, List.map_eq_nil_iff]
  constructor
  · intro h
    have := (sortReviewsDesc_perm (userReviewsOf db email)).length_eq
    rw [h] at this
    exact List.length_eq_zero.mp this.symm
  · intro h
    rw [h]
    rfl

/-! ### C1: movie statistics -/

/-- C1 (amended): for every movie and every set of at most 50 reviews
whose `movie_id` matches it, `update_movie_stats` stores
`total_reviews` equal to the number of those reviews and `avg_rating`
equal to the arithmetic mean of their ratings rounded to 2 decimal
places, and stores `(0, 0.0)` when the set is empty (with more than 50
matching reviews the statistics instead cover only the 50 most recent,
because the review fetch defaults to `limit=50`). -/
theorem updateMovieStats_atMost50_stores_count_and_mean (db : DB) (movie_id : String)
    (haws : db.awsAvailable = true) (hmr : db.moviesReachable = true)
    (hrr : db.reviewsReachable = true)
    (hle : (movieReviewsOf db movie_id).length ≤ 50) :
    updateMovieStats db movie_id =
      (true, { db with movies := db.movies.map (fun m =>
        if m.movie_id == movie_id then
          { m with
            total_reviews := (movieReviewsOf db movie_id).length,
            avg_rating :=
              round2 (meanRating ((movieReviewsOf db movie_id).map (fun r => r.rating))) }
        else m) }) := by
  have hrev : getMovieReviews db movie_id 50 = sortReviewsDesc (movieReviewsOf db movie_id) := by
    rw [getMovieReviews_eq movie_id 50 haws hrr]
    exact List.take_of_length_le (by rw [length_sortReviewsDesc]; exact hle)
  have hlen : (sortReviewsDesc (movieReviewsOf db movie_id)).length =
      (movieReviewsOf db movie_id).length := length_sortReviewsDesc _
  have hsum : ((sortReviewsDesc (movieReviewsOf db movie_id)).map (fun r => (r.rating : ℚ))).sum =
      ((movieReviewsOf db movie_id).map (fun r => (r.rating : ℚ))).sum :=
    ((sortReviewsDesc_perm _).map _).sum_eq
  have hform : (if 0 < (movieReviewsOf db movie_id).length
        then ((movieReviewsOf db movie_id).map (fun r => (r.rating : ℚ))).sum /
          ((movieReviewsOf db movie_id).length : ℚ)
        else 0) =
      meanRating ((movieReviewsOf db movie_id).map (fun r => r.rating)) := by
    by_cases h0 : 0 < (movieReviewsOf db movie_id).length
    · rw [if_pos h0, meanRating, List.map_map, List.length_map]
      rfl
    · rw [if_neg h0]
      have hz : movieReviewsOf db movie_id = [] :=
        List.length_eq_zero.mp (Nat.eq_zero_of_not_pos h0)
      rw [hz]
      simp [meanRating]
  simp only [updateMovieStats, haws, hmr, hrev, not_true, if_false, Bool.true_eq_false,
    ite_false, Prod.mk.injEq, true_and]
  rw [hlen, hsum, hform]

/-! ### C2: user statistics -/

/-- Closed form of `update_user_stats` under a healthy store: the
stored fields over the full matching review set. -/
theorem updateUserStats_closed_form (db : DB) (email : String)
    (haws : db.awsAvailable = true) (husr : db.usersReachable = true)
    (hrr : db.reviewsReachable = true) :
    updateUserStats db email =
      (true, { db with users := db.users.map (fun u =>
        if u.email == email then
          { u with
            total_reviews := (userReviewsOf db email).length,
            avg_rating :=
              round2 (meanRating ((userReviewsOf db email).map (fun r => r.rating))),
            last_review_date := maxCreatedAt (userReviewsOf db email) }
        else u) }) := by
  have hrev : getUserReviews db email =
      (sortReviewsDesc (userReviewsOf db email)).map (enrich (getAllMovies db)) :=
    getUserReviews_eq email haws hrr
  have hlen : ((sortReviewsDesc (userReviewsOf db email)).map
        (enrich (getAllMovies db))).length = (userReviewsOf db email).length := by
    rw [List.length_map, length_sortReviewsDesc]
  have hmapq : ((sortReviewsDesc (userReviewsOf db email)).map
        (enrich (getAllMovies db))).map (fun r => (r.rating : ℚ)) =
      (sortReviewsDesc (userReviewsOf db email)).map (fun r => (r.rating : ℚ)) := by
    rw [List.map_map]
    exact List.map_congr_left (fun r _ => by
      simp only [Function.comp_apply, enrich_toReview])
  have hsum1 : ((sortReviewsDesc (userReviewsOf db email)).map
        (fun r => (r.rating : ℚ))).sum =
      ((userReviewsOf db email).map (fun r => (r.rating : ℚ))).sum :=
    ((sortReviewsDesc_perm _).map _).sum_eq
  have hform : (if 0 < (userReviewsOf db email).length
        then ((userReviewsOf db email).map (fun r => (r.rating : ℚ))).sum /
          ((userReviewsOf db email).length : ℚ)
        else 0) =
      meanRating ((userReviewsOf db email).map (fun r => r.rating)) := by
    by_cases h0 : 0 < (userReviewsOf db email).length
    · rw [if_pos h0, meanRating, List.map_map, List.length_map]
      rfl
    · rw [if_neg h0]
      have hz : userReviewsOf db email = [] :=
        List.length_eq_zero.mp (Nat.eq_zero_of_not_pos h0)
      rw [hz]
      simp [meanRating]
  have hmapd : ((sortReviewsDesc (userReviewsOf db email)).map
        (enrich (getAllMovies db))).map (fun r => r.created_at) =
      (sortReviewsDesc (userReviewsOf db email)).map (fun r => r.created_at) := by
    rw [List.map_map]
    exact List.map_congr_left (fun r _ => by
      simp only [Function.comp_apply, enrich_toReview])
  have hfold : ((sortReviewsDesc (userReviewsOf db email)).map
        (fun r => r.created_at)).foldl max "" = maxCreatedAt (userReviewsOf db email) := by
    rw [maxCreatedAt]
    exact foldl_max_perm ((sortReviewsDesc_perm _).map _)
  have hlastform : (if 0 < (userReviewsOf db email).length
        then maxCreatedAt (userReviewsOf db email) else "") =
      maxCreatedAt (userReviewsOf db email) := by
    by_cases h0 : 0 < (userReviewsOf db email).length
    · rw [if_pos h0]
    · rw [if_neg h0]
      have hz : userReviewsOf db email = [] :=
        List.length_eq_zero.mp (Nat.eq_zero_of_not_pos h0)
      rw [hz]
      rfl
  simp only [updateUserStats, haws, husr, hrev, not_true, if_false, Bool.true_eq_false,
    ite_false, Prod.mk.injEq, true_and]
  rw [hlen, hmapq, hsum1, hform, hmapd, hfold, hlastform]

/-- C2 (amended): for every user, `update_user_stats` stores
`total_reviews` equal to the count of the reviews whose `user_email`
matches, `avg_rating` equal to the mean of their ratings rounded to 2
decimal places, and `last_review_date` equal to the maximum
`created_at` among them; with zero reviews it stores `0`, `0.0` and the
empty string. -/
theorem updateUserStats_stores_rounded_mean_and_max_date (db : DB) (email : String)
    (haws : db.awsAvailable = true) (husr : db.usersReachable = true)
    (hrr : db.reviewsReachable = true) :
    updateUserStats db email =
      (true, { db with users := db.users.map (fun u =>
        if u.email == email then
          { u with
            total_reviews := (userReviewsOf db email).length,
            avg_rating :=
              round2 (meanRating ((userReviewsOf db email).map (fun r => r.rating))),
            last_review_date := maxCreatedAt (userReviewsOf db email) }
        else u) }) ∧
    (userReviewsOf db email ≠ [] →
      maxCreatedAt (userReviewsOf db email) ∈
        (userReviewsOf db email).map (fun r => r.created_at) ∧
      ∀ d ∈ (userReviewsOf db email).map (fun r => r.created_at),
        d ≤ maxCreatedAt (userReviewsOf db email)) ∧
    (userReviewsOf db email = [] → maxCreatedAt (userReviewsOf db email) = "") := by
  refine ⟨updateUserStats_closed_form db email haws husr hrr, ?_, ?_⟩
  · intro hne
    constructor
    · rcases foldl_max_mem ((userReviewsOf db email).map (fun r => r.created_at)) "" with he | hm
      · rcases List.exists_mem_of_ne_nil _ hne with ⟨r, hr⟩
        have hx : r.created_at ∈ (userReviewsOf db email).map (fun r => r.created_at) :=
          List.mem_map_of_mem _ hr
        have h1 : r.created_at ≤ maxCreatedAt (userReviewsOf db email) :=
          mem_le_foldl_max hx ""
        have h2 : maxCreatedAt (userReviewsOf db email) ≤ r.created_at := by
          rw [maxCreatedAt, he]
          exact empty_string_le _
        have h3 : r.created_at = maxCreatedAt (userReviewsOf db email) := le_antisymm h1 h2
        rw [← h3]
        exact hx
      · exact hm
    · intro d hd
      exact mem_le_foldl_max hd ""
  · intro hz
    rw [maxCreatedAt, hz]
    rfl

/-- Concrete healthy store with one movie and two matching reviews. -/
def exDB1 : DB := DB.healthy
  [ { movie_id := "movie_001", title := "The Quantum Paradox", genre := "Sci-Fi",
      release_year := 2024, total_reviews := 0, avg_rating := 0, active := true } ]
  []
  [ { review_id := "r1", user_email := "u@x.com", movie_id := "movie_001", name := "U",
      rating := 5, feedback := "great movie indeed", created_at := "2025-01-01T00:00:00",
      display_date := "2025-01-01" },
    { review_id := "r2", user_email := "u@x.com", movie_id := "movie_001", name := "U",
      rating := 4, feedback := "pretty good movie", created_at := "2025-01-02T00:00:00",
      display_date := "2025-01-02" } ]

theorem updateMovieStats_atMost50_witness :
    (movieReviewsOf exDB1 "movie_001").length ≤ 50 ∧
    updateMovieStats exDB1 "movie_001" =
      (true, { exDB1 with movies := exDB1.movies.map (fun m =>
        if m.movie_id == "movie_001" then
          { m with
            total_reviews := (movieReviewsOf exDB1 "movie_001").length,
            avg_rating :=
              round2 (meanRating ((movieReviewsOf exDB1 "movie_001").map (fun r => r.rating))) }
        else m) }) :=
  ⟨by decide,
   updateMovieStats_atMost50_stores_count_and_mean exDB1 "movie_001" rfl rfl rfl (by decide)⟩

/-- A store holding 51 reviews of the same movie. -/
def cexReviews1 : List Review := (List.range 51).map (fun i =>
  { review_id := toString i, user_email := "u@x.com", movie_id := "movie_001", name := "U",
    rating := 5, feedback := "an excellent film", created_at := "2025-01-01T00:00:00",
    display_date := "2025-01-01" })

def cexDB1 : DB := DB.healthy
  [ { movie_id := "movie_001", title := "The Quantum Paradox", genre := "Sci-Fi",
      release_year := 2024, total_reviews := 0, avg_rating := 0, active := true } ]
  [] cexReviews1

/-- C1 counterexample: with 51 matching reviews the code stores
`total_reviews = 50`, not 51, because `update_movie_stats` reads the
reviews through `get_movie_reviews` whose default `limit` is 50. -/
theorem updateMovieStats_truncates_beyond_50 :
    (movieReviewsOf cexDB1 "movie_001").length = 51 ∧
    (updateMovieStats cexDB1 "movie_001").2.movies.map (fun m => m.total_reviews) = [50] := by
  have hfilter : movieReviewsOf cexDB1 "movie_001" = cexReviews1 := by
    rw [movieReviewsOf]
    apply List.filter_eq_self.mpr
    intro r hr
    obtain ⟨i, hi, rfl⟩ := List.mem_map.mp hr
    rfl
  have hlen51 : (movieReviewsOf cexDB1 "movie_001").length = 51 := by
    rw [hfilter, cexReviews1, List.length_map, List.length_range]
  refine ⟨hlen51, ?_⟩
  have htot : (getMovieReviews cexDB1 "movie_001" 50).length = 50 := by
    rw [getMovieReviews_eq "movie_001" 50 rfl rfl, List.length_take,
      length_sortReviewsDesc, hlen51]
    rfl
  have haws : cexDB1.awsAvailable = true := rfl
  have hmr : cexDB1.moviesReachable = true := rfl
  simp only [updateMovieStats, haws, hmr, not_true, if_false, Bool.true_eq_false, ite_false]
  rw [htot]
  have hmv : cexDB1.movies =
      [ { movie_id := "movie_001", title := "The Quantum Paradox", genre := "Sci-Fi",
          release_year := 2024, total_reviews := 0, avg_rating := 0, active := true } ] := rfl
  rw [hmv]
  simp

/-- Concrete healthy store with one user and three matching reviews
whose mean rating `4/3` is not representable in 2 decimal places. -/
def cexDB2 : DB := DB.healthy []
  [ { email := "u@x.com", name := "U", total_reviews := 0, avg_rating := 0,
      last_review_date := "", is_active := true } ]
  [ { review_id := "r1", user_email := "u@x.com", movie_id := "m1", name := "U",
      rating := 1, feedback := "feedback number one", created_at := "2025-01-01T00:00:00",
      display_date := "2025-01-01" },
    { review_id := "r2", user_email := "u@x.com", movie_id := "m1", name := "U",
      rating := 1, feedback := "feedback number two", created_at := "2025-01-01T00:00:00",
      display_date := "2025-01-01" },
    { review_id := "r3", user_email := "u@x.com", movie_id := "m1", name := "U",
      rating := 2, feedback := "feedback number three", created_at := "2025-01-01T00:00:00",
      display_date := "2025-01-01" } ]

/-- C2 counterexample: the stored `avg_rating` is the rounded value
`1.33`, which differs from the exact mean `4/3` of the user's
ratings. -/
theorem updateUserStats_rounds_mean_cex :
    (updateUserStats cexDB2 "u@x.com").2.users.map (fun u => u.avg_rating) = [133/100] ∧
    meanRating ((userReviewsOf cexDB2 "u@x.com").map (fun r => r.rating)) ≠ 133/100 := by
  have hfilter : userReviewsOf cexDB2 "u@x.com" = cexDB2.reviews := by
    rw [userReviewsOf]
    apply List.filter_eq_self.mpr
    intro r hr
    fin_cases hr <;> rfl
  constructor
  · rw [updateUserStats_closed_form cexDB2 "u@x.com" rfl rfl rfl]
    rw [hfilter]
    have hu : cexDB2.users =
        [ { email := "u@x.com", name := "U", total_reviews := 0, avg_rating := 0,
            last_review_date := "", is_active := true } ] := rfl
    simp only [hu, List.map_cons, List.map_nil]
    norm_num [meanRating, round2, round_eq, cexDB2, DB.healthy]
  · rw [hfilter]
    norm_num [meanRating, cexDB2, DB.healthy]

theorem updateUserStats_witness :
    updateUserStats exDB1 "u@x.com" =
      (true, { exDB1 with users := exDB1.users.map (fun u =>
        if u.email == "u@x.com" then
          { u with
            total_reviews := (userReviewsOf exDB1 "u@x.com").length,
            avg_rating :=
              round2 (meanRating ((userReviewsOf exDB1 "u@x.com").map (fun r => r.rating))),
            last_review_date := maxCreatedAt (userReviewsOf exDB1 "u@x.com") }
        else u) }) ∧
    maxCreatedAt (userReviewsOf exDB1 "u@x.com") ∈
      (userReviewsOf exDB1 "u@x.com").map (fun r => r.created_at) ∧
    "2025-01-01T00:00:00" ≤ maxCreatedAt (userReviewsOf exDB1 "u@x.com") := by
  have h := updateUserStats_stores_rounded_mean_and_max_date exDB1 "u@x.com" rfl rfl rfl
  have hne : userReviewsOf exDB1 "u@x.com" ≠ [] := by decide
  exact ⟨h.1, (h.2.1 hne).1, (h.2.1 hne).2 _ (by decide)⟩

/-! ### Recommendation engine lemmas -/

theorem getRecommendations_warm (db : DB) (email : String) (limit : Nat)
    (h : (getUserReviews db email).isEmpty = false) :
    getRecommendations db email limit =
      (if (primaryRecs db email).length < limit
        then primaryRecs db email ++
          (fillRecs db email).take (limit - (primaryRecs db email).length)
        else primaryRecs db email).take limit := by
  simp only [getRecommendations, h, Bool.false_eq_true, if_false]

theorem mem_primaryRecs {db : DB} {email : String} {m : Movie} :
    m ∈ primaryRecs db email ↔
      m ∈ getAllMovies db ∧ m.movie_id ∉ ratedMovieIds (getUserReviews db email) ∧
        m.genre ∈ favoriteGenres (getUserReviews db email) := by
  rw [primaryRecs, mem_sortByAvgDesc, List.mem_filter]
  simp [and_assoc]

theorem mem_fillRecs {db : DB} {email : String} {m : Movie} :
    m ∈ fillRecs db email ↔
      m ∈ getAllMovies db ∧ m.movie_id ∉ ratedMovieIds (getUserReviews db email) ∧
        m ∉ primaryRecs db email := by
  rw [fillRecs, mem_sortByAvgDesc, List.mem_filter]
  simp [and_assoc]

theorem ratedMovieIds_perm (db : DB) (email : String)
    (haws : db.awsAvailable = true) (hrr : db.reviewsReachable = true) :
    (ratedMovieIds (getUserReviews db email)).Perm
      ((userReviewsOf db email).map (fun r => r.movie_id)) := by
  rw [ratedMovieIds, getUserReviews_eq email haws hrr, List.map_map]
  have hfun : ((fun r : EReview => r.movie_id) ∘ enrich (getAllMovies db)) =
      (fun r : Review => r.movie_id) := by
    funext r
    simp only [Function.comp_apply]
    rw [show (enrich (getAllMovies db) r).movie_id =
      (enrich (getAllMovies db) r).toReview.movie_id from rfl, enrich_toReview]
  rw [hfun]
  exact (sortReviewsDesc_perm _).map _

/-! ### C3: cold start -/

/-- C3: for every user with zero stored reviews and every limit,
`get_recommendations` returns the top `limit` active movies sorted by
`avg_rating` descending (or fewer when the catalog is smaller), via a
stable sort whose ties keep catalog iteration order (the final
conjunct: movies of any fixed `avg_rating` appear in catalog order). -/
theorem getRecommendations_cold_start (db : DB) (email : String) (limit : Nat) (q : ℚ)
    (haws : db.awsAvailable = true) (hmr : db.moviesReachable = true)
    (hrr : db.reviewsReachable = true)
    (hnone : userReviewsOf db email = []) :
    getRecommendations db email limit =
      (sortByAvgDesc (db.movies.filter (fun m => m.active))).take limit ∧
    (getRecommendations db email limit).Sorted avgDesc ∧
    (getRecommendations db email limit).length =
      min limit (db.movies.filter (fun m => m.active)).length ∧
    (sortByAvgDesc (db.movies.filter (fun m => m.active))).filter
        (fun m => m.avg_rating == q) =
      (db.movies.filter (fun m => m.active)).filter (fun m => m.avg_rating == q) := by
  have hempty : (getUserReviews db email).isEmpty = true := by
    rw [List.isEmpty_iff, getUserReviews_eq_nil_iff email haws hrr]
    exact hnone
  have hrec : getRecommendations db email limit =
      (sortByAvgDesc (db.movies.filter (fun m => m.active))).take limit := by
    rw [getRecommendations, if_pos hempty, coldStartRecs, getAllMovies_eq haws hmr]
  refine ⟨hrec, ?_, ?_, sortByAvgDesc_filter_avg _ q⟩
  · rw [hrec]
    exact List.Pairwise.sublist (List.take_sublist _ _) (sorted_sortByAvgDesc _)
  · rw [hrec, List.length_take, length_sortByAvgDesc]

/-- Concrete healthy store with three active and one inactive movie and
no reviews at all. -/
def exDB3 : DB := DB.healthy
  [ { movie_id := "m1", title := "A", genre := "Drama", release_year := 2024,
      total_reviews := 2, avg_rating := 4, active := true },
    { movie_id := "m2", title := "B", genre := "Action", release_year := 2024,
      total_reviews := 1, avg_rating := 5, active := true },
    { movie_id := "m3", title := "C", genre := "Drama", release_year := 2024,
      total_reviews := 3, avg_rating := 4, active := true },
    { movie_id := "m4", title := "D", genre := "Drama", release_year := 2024,
      total_reviews := 9, avg_rating := 5, active := false } ]
  [] []

theorem getRecommendations_cold_start_witness :
    getRecommendations exDB3 "nobody@x.com" 2 =
      (sortByAvgDesc (exDB3.movies.filter (fun m => m.active))).take 2 ∧
    (getRecommendations exDB3 "nobody@x.com" 2).Sorted avgDesc ∧
    (getRecommendations exDB3 "nobody@x.com" 2).length =
      min 2 (exDB3.movies.filter (fun m => m.active)).length ∧
    (sortByAvgDesc (exDB3.movies.filter (fun m => m.active))).filter
        (fun m => m.avg_rating == (4 : ℚ)) =
      (exDB3.movies.filter (fun m => m.active)).filter (fun m => m.avg_rating == (4 : ℚ)) :=
  getRecommendations_cold_start exDB3 "nobody@x.com" 2 4 rfl rfl rfl rfl

/-! ### C4: exclusion of rated movies -/

/-- C4: no movie returned by `get_recommendations` carries a
`movie_id` the user has already reviewed, on both the favorite-genre
candidates and the fill candidates. -/
theorem getRecommendations_excludes_rated (db : DB) (email : String) (limit : Nat) (m : Movie)
    (haws : db.awsAvailable = true) (hrr : db.reviewsReachable = true)
    (hm : m ∈ getRecommendations db email limit) :
    m.movie_id ∉ (userReviewsOf db email).map (fun r => r.movie_id) := by
  have hperm := ratedMovieIds_perm db email haws hrr
  by_cases hemp : (getUserReviews db email).isEmpty = true
  · have : userReviewsOf db email = [] := by
      rw [← getUserReviews_eq_nil_iff email haws hrr, ← List.isEmpty_iff]
      exact hemp
    rw [this]
    simp
  · have hwarm := getRecommendations_warm db email limit (Bool.not_eq_true _ ▸ hemp : _)
    rw [hwarm] at hm
    have hm2 : m ∈ primaryRecs db email ∨ m ∈ fillRecs db email := by
      have hm3 := (List.take_sublist _ _).subset hm
      by_cases hlt : (primaryRecs db email).length < limit
      · rw [if_pos hlt] at hm3
        rcases List.mem_append.mp hm3 with h | h
        · exact Or.inl h
        · exact Or.inr ((List.take_sublist _ _).subset h)
      · rw [if_neg hlt] at hm3
        exact Or.inl hm3
    have hnot : m.movie_id ∉ ratedMovieIds (getUserReviews db email) := by
      rcases hm2 with h | h
      · exact (mem_primaryRecs.mp h).2.1
      · exact (mem_fillRecs.mp h).2.1
    intro hc
    exact hnot (hperm.mem_iff.mpr hc)

/-- Concrete healthy store where the user rated one of two movies. -/
def exDB4 : DB := DB.healthy
  [ { movie_id := "m1", title := "A", genre := "Drama", release_year := 2024,
      total_reviews := 1, avg_rating := 5, active := true },
    { movie_id := "m2", title := "B", genre := "Drama", release_year := 2024,
      total_reviews := 0, avg_rating := 0, active := true } ]
  []
  [ { review_id := "r1", user_email := "u@x.com", movie_id := "m1", name := "U",
      rating := 5, feedback := "a wonderful drama", created_at := "2025-01-01T00:00:00",
      display_date := "2025-01-01" } ]

theorem getRecommendations_excludes_rated_witness :
    "m2" ∉ (userReviewsOf exDB4 "u@x.com").map (fun r => r.movie_id) :=
  getRecommendations_excludes_rated exDB4 "u@x.com" 1
    { movie_id := "m2", title := "B", genre := "Drama", release_year := 2024,
      total_reviews := 0, avg_rating := 0, active := true }
    rfl rfl (by
      norm_num [getRecommendations, getUserReviews, getAllMovies, sortReviewsDesc,
        List.insertionSort, List.orderedInsert, enrich, primaryRecs, fillRecs,
        sortByAvgDesc, favoriteGenres, genreKeys, genreRatingsOf, genreOf, meanRating,
        ratedMovieIds, exDB4, DB.healthy])

/-! ### C5: favorite-genre threshold -/

/-- C5: for a user with at least one review rated in genre `g` (the
genres with a defined per-genre mean), `g` is treated as a favorite
genre by `get_recommendations` if and only if the mean of the user's
own ratings attributed to `g` is at least 4; the threshold is
inclusive. -/
theorem favoriteGenre_iff_mean_ge_four (db : DB) (email : String) (g : String)
    (hg : genreRatingsOf (getUserReviews db email) g ≠ []) :
    g ∈ favoriteGenres (getUserReviews db email) ↔
      4 ≤ meanRating (genreRatingsOf (getUserReviews db email) g) := by
  rw [mem_favoriteGenres]
  exact ⟨And.right, fun h4 => ⟨genreRatingsOf_ne_nil.mp hg, h4⟩⟩

/-- Concrete healthy store with one Drama movie rated once by the user. -/
def exDB5 : DB := DB.healthy
  [ { movie_id := "m1", title := "A", genre := "Drama", release_year := 2024,
      total_reviews := 1, avg_rating := 4, active := true } ]
  []
  [ { review_id := "r1", user_email := "u@x.com", movie_id := "m1", name := "U",
      rating := 4, feedback := "a moving drama film", created_at := "2025-01-01T00:00:00",
      display_date := "2025-01-01" } ]

theorem favoriteGenre_iff_witness :
    "Drama" ∈ favoriteGenres (getUserReviews exDB5 "u@x.com") ↔
      4 ≤ meanRating (genreRatingsOf (getUserReviews exDB5 "u@x.com") "Drama") :=
  favoriteGenre_iff_mean_ge_four exDB5 "u@x.com" "Drama" (by decide)

/-! ### C6: fill policy -/

theorem length_filter_partition (l : List Movie) (p : Movie → Bool) :
    (l.filter p).length + (l.filter (fun m => ! p m)).length = l.length := by
  have h := (List.filter_append_perm p l).length_eq
  rw [List.length_append] at h
  exact h

/-- Partition of the unrated active movies into the primary candidates
and the fill candidates (no duplicate ids needed: list membership in
`P` is already decided by the filter predicates). -/
theorem unrated_partition_length (A : List Movie) (rated favs : List String)
    (P : List Movie)
    (hP : P = sortByAvgDesc (A.filter (fun m =>
      decide (m.movie_id ∉ rated) && decide (m.genre ∈ favs)))) :
    (A.filter (fun m => decide (m.movie_id ∉ rated))).length =
      (A.filter (fun m => decide (m.movie_id ∉ rated) &&
        decide (m.genre ∈ favs))).length +
      (A.filter (fun m => decide (m.movie_id ∉ rated) && decide (m ∉ P))).length := by
  have hmemP : ∀ m : Movie, m ∈ P ↔ m ∈ A ∧
      (decide (m.movie_id ∉ rated) && decide (m.genre ∈ favs)) = true := by
    intro m
    rw [hP, mem_sortByAvgDesc, List.mem_filter]
  have hpart := length_filter_partition
    (A.filter (fun m => decide (m.movie_id ∉ rated))) (fun m => decide (m ∈ P))
  have h1 : (A.filter (fun m => decide (m.movie_id ∉ rated))).filter
        (fun m => decide (m ∈ P)) =
      A.filter (fun m => decide (m.movie_id ∉ rated) && decide (m.genre ∈ favs)) := by
    rw [List.filter_filter]
    apply List.filter_congr
    intro m hmA
    by_cases hU : m.movie_id ∉ rated
    · rw [decide_eq_true hU, Bool.and_true, Bool.true_and]
      rw [decide_eq_decide]
      constructor
      · intro hmP
        have hb := (hmemP m).mp hmP
        have := (Bool.and_eq_true _ _).mp hb.2
        exact of_decide_eq_true this.2
      · intro hg
        exact (hmemP m).mpr ⟨hmA, by rw [decide_eq_true hU, decide_eq_true hg]; rfl⟩
    · rw [decide_eq_false hU, Bool.and_false, Bool.false_and]
  have h2 : (A.filter (fun m => decide (m.movie_id ∉ rated))).filter
        (fun m => ! decide (m ∈ P)) =
      A.filter (fun m => decide (m.movie_id ∉ rated) && decide (m ∉ P)) := by
    rw [List.filter_filter]
    apply List.filter_congr
    intro m _
    simp only [decide_not]
    exact Bool.and_comm _ _
  rw [h1, h2] at hpart
  exact hpart.symm

/-- C6: for a user with at least one stored review, under the
documented catalog invariant that movie ids are unique: when the
primary favorite-genre candidates number fewer than `limit`, the
returned list is the primary candidates followed by the top fill
candidates (so all primary candidates precede every fill candidate);
in all cases the result has no duplicate movies, and its length is
exactly `min limit (number of unrated active movies)`. -/
theorem getRecommendations_fill_policy (db : DB) (email : String) (limit : Nat)
    (haws : db.awsAvailable = true) (hmr : db.moviesReachable = true)
    (hrr : db.reviewsReachable = true)
    (hne : userReviewsOf db email ≠ [])
    (hnodup : (db.movies.map (fun m => m.movie_id)).Nodup) :
    ((primaryRecs db email).length < limit →
      getRecommendations db email limit =
        primaryRecs db email ++
          (fillRecs db email).take (limit - (primaryRecs db email).length)) ∧
    (getRecommendations db email limit).Nodup ∧
    (getRecommendations db email limit).length =
      min limit ((getAllMovies db).filter
        (fun m => decide (m.movie_id ∉ ratedMovieIds (getUserReviews db email)))).length := by
  have hemp : (getUserReviews db email).isEmpty = false := by
    rw [Bool.eq_false_iff]
    intro hc
    rw [List.isEmpty_iff, getUserReviews_eq_nil_iff email haws hrr] at hc
    exact hne hc
  have hwarm := getRecommendations_warm db email limit hemp
  have hmovN : db.movies.Nodup := List.Nodup.of_map _ hnodup
  have hAN : (getAllMovies db).Nodup := by
    rw [getAllMovies_eq haws hmr]
    exact List.Nodup.sublist (List.filter_sublist _) hmovN
  have hPN : (primaryRecs db email).Nodup :=
    ((sortByAvgDesc_perm _).nodup_iff).mpr
      (List.Nodup.sublist (List.filter_sublist _) hAN)
  have hFN : (fillRecs db email).Nodup :=
    ((sortByAvgDesc_perm _).nodup_iff).mpr
      (List.Nodup.sublist (List.filter_sublist _) hAN)
  have hdisj : List.Disjoint (primaryRecs db email) (fillRecs db email) := by
    intro a haP haF
    exact (mem_fillRecs.mp haF).2.2 haP
  have hklen := unrated_partition_length (getAllMovies db)
    (ratedMovieIds (getUserReviews db email)) (favoriteGenres (getUserReviews db email))
    (primaryRecs db email) rfl
  have hPlen : (primaryRecs db email).length =
      ((getAllMovies db).filter (fun m =>
        decide (m.movie_id ∉ ratedMovieIds (getUserReviews db email)) &&
        decide (m.genre ∈ favoriteGenres (getUserReviews db email)))).length :=
    length_sortByAvgDesc _
  have hFlen : (fillRecs db email).length =
      ((getAllMovies db).filter (fun m =>
        decide (m.movie_id ∉ ratedMovieIds (getUserReviews db email)) &&
        decide (m ∉ primaryRecs db email))).length :=
    length_sortByAvgDesc _
  by_cases hlt : (primaryRecs db email).length < limit
  · have htake : (primaryRecs db email ++
        (fillRecs db email).take (limit - (primaryRecs db email).length)).length ≤ limit := by
      rw [List.length_append, List.length_take]
      have hmin := min_le_left (limit - (primaryRecs db email).length) (fillRecs db email).length
      omega
    have heq : getRecommendations db email limit =
        primaryRecs db email ++
          (fillRecs db email).take (limit - (primaryRecs db email).length) := by
      rw [hwarm, if_pos hlt]
      exact List.take_of_length_le htake
    refine ⟨fun _ => heq, ?_, ?_⟩
    · rw [heq]
      refine List.Nodup.append hPN (List.Nodup.sublist (List.take_sublist _ _) hFN) ?_
      intro a haP haT
      exact hdisj haP ((List.take_sublist _ _).subset haT)
    · rw [heq, List.length_append, List.length_take, hklen, ← hPlen, ← hFlen]
      omega
  · have heq : getRecommendations db email limit = (primaryRecs db email).take limit := by
      rw [hwarm, if_neg hlt]
    refine ⟨fun hc => absurd hc hlt, ?_, ?_⟩
    · rw [heq]
      exact List.Nodup.sublist (List.take_sublist _ _) hPN
    · rw [heq, List.length_take, hklen, ← hPlen, ← hFlen]
      omega

/-- Concrete healthy store: three active movies with unique ids, one
rated by the user. -/
def exDB6 : DB := DB.healthy
  [ { movie_id := "m1", title := "A", genre := "Drama", release_year := 2024,
      total_reviews := 1, avg_rating := 3, active := true },
    { movie_id := "m2", title := "B", genre := "Drama", release_year := 2024,
      total_reviews := 1, avg_rating := 5, active := true },
    { movie_id := "m3", title := "C", genre := "Action", release_year := 2024,
      total_reviews := 2, avg_rating := 4, active := true } ]
  []
  [ { review_id := "r1", user_email := "u@x.com", movie_id := "m1", name := "U",
      rating := 5, feedback := "a wonderful drama", created_at := "2025-01-01T00:00:00",
      display_date := "2025-01-01" } ]

theorem getRecommendations_fill_policy_witness :
    getRecommendations exDB6 "u@x.com" 3 =
      primaryRecs exDB6 "u@x.com" ++
        (fillRecs exDB6 "u@x.com").take (3 - (primaryRecs exDB6 "u@x.com").length) ∧
    (getRecommendations exDB6 "u@x.com" 3).Nodup ∧
    (getRecommendations exDB6 "u@x.com" 3).length =
      min 3 ((getAllMovies exDB6).filter
        (fun m => decide (m.movie_id ∉ ratedMovieIds (getUserReviews exDB6 "u@x.com")))).length := by
  have h := getRecommendations_fill_policy exDB6 "u@x.com" 3 rfl rfl rfl (by decide) (by decide)
  have hPlt : (primaryRecs exDB6 "u@x.com").length < 3 := by
    rw [primaryRecs, length_sortByAvgDesc]
    norm_num [getAllMovies, getUserReviews, sortReviewsDesc, List.insertionSort,
      List.orderedInsert, enrich, favoriteGenres, genreKeys, genreRatingsOf, genreOf,
      meanRating, ratedMovieIds, exDB6, DB.healthy]
    decide
  exact ⟨h.1 hPlt, h.2.1, h.2.2⟩

/-! ### C7: popularity-weighted top movies -/

/-- C7: the analytics top-movies listing is the top `limit` of the
active movies sorted by the popularity-weighted score
`avg_rating * total_reviews` descending; a movie with zero reviews
scores 0, and in the sorted order no zero-review movie precedes a
movie with positive score. -/
theorem topMovies_popularity_weighted (db : DB) (limit : Nat) (a b : Movie)
    (haws : db.awsAvailable = true) (hmr : db.moviesReachable = true) :
    topMoviesListing db limit =
      (sortByScoreDesc (db.movies.filter (fun m => m.active))).take limit ∧
    (sortByScoreDesc (db.movies.filter (fun m => m.active))).Sorted scoreDesc ∧
    (a.total_reviews = 0 → score a = 0) ∧
    ([a, b].Sublist (sortByScoreDesc (db.movies.filter (fun m => m.active))) →
      a.total_reviews = 0 → ¬ 0 < score b) := by
  refine ⟨by rw [topMoviesListing, getAllMovies_eq haws hmr], sorted_sortByScoreDesc _, ?_, ?_⟩
  · intro h0
    rw [score, h0]
    simp
  · intro hsub h0 hpos
    have hpair : List.Pairwise scoreDesc [a, b] :=
      List.Pairwise.sublist hsub (sorted_sortByScoreDesc _)
    have hab : scoreDesc a b := (List.pairwise_cons.mp hpair).1 b (List.mem_singleton.mpr rfl)
    have hza : score a = 0 := by
      rw [score, h0]
      simp
    rw [scoreDesc, hza] at hab
    exact absurd (lt_of_lt_of_le hpos hab) (lt_irrefl 0)

/-- Two active movies that both have zero reviews (hence score 0). -/
def exM7a : Movie :=
  { movie_id := "m1", title := "A", genre := "Drama", release_year := 2024,
    total_reviews := 0, avg_rating := 5, active := true }

def exM7b : Movie :=
  { movie_id := "m2", title := "B", genre := "Action", release_year := 2024,
    total_reviews := 0, avg_rating := 3, active := true }

def exDB7 : DB := DB.healthy [exM7a, exM7b] [] []

theorem topMovies_witness :
    topMoviesListing exDB7 2 =
      (sortByScoreDesc (exDB7.movies.filter (fun m => m.active))).take 2 ∧
    (sortByScoreDesc (exDB7.movies.filter (fun m => m.active))).Sorted scoreDesc ∧
    score exM7a = 0 ∧
    ¬ 0 < score exM7b := by
  have h := topMovies_popularity_weighted exDB7 2 exM7a exM7b rfl rfl
  have hsort : sortByScoreDesc (exDB7.movies.filter (fun m => m.active)) = [exM7a, exM7b] := by
    norm_num [sortByScoreDesc, List.insertionSort, List.orderedInsert, scoreDesc, score,
      exDB7, DB.healthy, exM7a, exM7b]
  have hsub : [exM7a, exM7b].Sublist
      (sortByScoreDesc (exDB7.movies.filter (fun m => m.active))) := by
    rw [hsort]
  exact ⟨h.1, h.2.1, h.2.2.1 rfl, h.2.2.2 hsub rfl⟩

/-! ### C8: degraded storage -/

/-- C8 (amended): when AWS never became available (the table objects
are `None`), catalog browsing falls back to the seed data, and
`get_recommendations` therefore returns the top `limit` seed movies —
a non-empty default, not the empty list — while
`get_total_reviews_count` returns 0.  When the tables exist but the
backing store is unreachable at runtime, every scan degrades to no
items, so `get_all_movies` returns the empty list,
`get_recommendations` returns the empty list and
`get_total_reviews_count` returns 0.  No call raises. -/
theorem degraded_mode_defaults (db db2 : DB) (email : String) (limit : Nat)
    (h1 : db.awsAvailable = false)
    (h2a : db2.awsAvailable = true) (h2m : db2.moviesReachable = false)
    (h2r : db2.reviewsReachable = false) :
    (getAllMovies db = MOVIES_INITIAL_DATA ∧
     getRecommendations db email limit = (sortByAvgDesc MOVIES_INITIAL_DATA).take limit ∧
     getTotalReviewsCount db = 0) ∧
    (getAllMovies db2 = [] ∧
     getRecommendations db2 email limit = [] ∧
     getTotalReviewsCount db2 = 0) := by
  have hA1 : getAllMovies db = MOVIES_INITIAL_DATA := by
    simp [getAllMovies, h1]
  have hu1 : getUserReviews db email = [] := by
    simp [getUserReviews, h1]
  have hr1 : getRecommendations db email limit =
      (sortByAvgDesc MOVIES_INITIAL_DATA).take limit := by
    rw [getRecommendations, if_pos (by rw [hu1]; rfl), coldStartRecs, hA1]
  have hc1 : getTotalReviewsCount db = 0 := by
    simp [getTotalReviewsCount, h1]
  have hA2 : getAllMovies db2 = [] := by
    simp [getAllMovies, h2a, h2m]
  have hu2 : getUserReviews db2 email = [] := by
    simp [getUserReviews, h2a, h2r, sortReviewsDesc, List.insertionSort]
  have hr2 : getRecommendations db2 email limit = [] := by
    rw [getRecommendations, if_pos (by rw [hu2]; rfl), coldStartRecs, hA2]
    simp [sortByAvgDesc, List.insertionSort]
  have hc2 : getTotalReviewsCount db2 = 0 := by
    simp [getTotalReviewsCount, h2a, h2r]
  exact ⟨⟨hA1, hr1, hc1⟩, ⟨hA2, hr2, hc2⟩⟩

/-- The startup-unavailable storage state (AWS connection failed, all
table objects are `None`). -/
def cexDB8 : DB :=
  { awsAvailable := false, moviesReachable := false, usersReachable := false,
    reviewsReachable := false, movies := [], users := [], reviews := [] }

/-- A runtime-unreachable storage state (tables configured, scans
fail), holding one movie and one review. -/
def exDB8b : DB :=
  { awsAvailable := true, moviesReachable := false, usersReachable := true,
    reviewsReachable := false,
    movies := [ { movie_id := "m1", title := "A", genre := "Drama", release_year := 2024,
                  total_reviews := 0, avg_rating := 0, active := true } ],
    users := [],
    reviews := [ { review_id := "r1", user_email := "u@x.com", movie_id := "m1", name := "U",
                   rating := 5, feedback := "a wonderful drama", created_at := "t",
                   display_date := "d" } ] }

/-- C8 counterexample: with the store unavailable at startup,
`get_recommendations` returns the 5 top seed movies — a list of length
5, not the empty list the claim asserts. -/
theorem unavailable_recommendations_nonempty_cex :
    (getRecommendations cexDB8 "someone@example.com" 5).length = 5 ∧
    getRecommendations cexDB8 "someone@example.com" 5 ≠ [] := by
  have hu : getUserReviews cexDB8 "someone@example.com" = [] := by
    simp [getUserReviews, cexDB8]
  have hA : getAllMovies cexDB8 = MOVIES_INITIAL_DATA := by
    simp [getAllMovies, cexDB8]
  have hr : getRecommendations cexDB8 "someone@example.com" 5 =
      (sortByAvgDesc MOVIES_INITIAL_DATA).take 5 := by
    rw [getRecommendations, if_pos (by rw [hu]; rfl), coldStartRecs, hA]
  have hlen : (getRecommendations cexDB8 "someone@example.com" 5).length = 5 := by
    rw [hr, List.length_take, length_sortByAvgDesc]
    rfl
  refine ⟨hlen, ?_⟩
  intro hnil
  rw [hnil] at hlen
  exact absurd hlen (by simp)

theorem degraded_mode_witness :
    (getAllMovies cexDB8 = MOVIES_INITIAL_DATA ∧
     getRecommendations cexDB8 "x@y.zz" 4 = (sortByAvgDesc MOVIES_INITIAL_DATA).take 4 ∧
     getTotalReviewsCount cexDB8 = 0) ∧
    (getAllMovies exDB8b = [] ∧
     getRecommendations exDB8b "x@y.zz" 4 = [] ∧
     getTotalReviewsCount exDB8b = 0) :=
  degraded_mode_defaults cexDB8 exDB8b "x@y.zz" 4 rfl rfl rfl rfl

/-! ### C9: submit flow -/

theorem updateMovieStats_reviews_eq (db : DB) (movie_id : String) :
    (updateMovieStats db movie_id).2.reviews = db.reviews := by
  simp only [updateMovieStats]
  split
  · rfl
  · split
    · rfl
    · rfl

theorem updateUserStats_reviews_eq (db : DB) (email : String) :
    (updateUserStats db email).2.reviews = db.reviews := by
  simp only [updateUserStats]
  split
  · rfl
  · split
    · rfl
    · rfl

/-- C9: whenever the review write succeeds, `submit_review` appends the
review, then synchronously recomputes movie stats and then user stats
on the post-write state, and returns `True` — the return values of both
recomputes are ignored (so failures there do not change the outcome)
and the review write is never rolled back. -/
theorem submitReview_recomputes_and_succeeds (db : DB)
    (name email movie_id : String) (rating : Nat)
    (feedback review_id created_at display_date : String)
    (haws : db.awsAvailable = true) (hrr : db.reviewsReachable = true) :
    submitReview db name email movie_id rating feedback review_id created_at display_date =
      (true,
        (updateUserStats
          (updateMovieStats
            { db with reviews := db.reviews ++
              [{ review_id := review_id, user_email := email, movie_id := movie_id,
                 name := name, rating := rating, feedback := feedback,
                 created_at := created_at, display_date := display_date }] } movie_id).2
          email).2) ∧
    { review_id := review_id, user_email := email, movie_id := movie_id, name := name,
        rating := rating, feedback := feedback, created_at := created_at,
        display_date := display_date } ∈
      (submitReview db name email movie_id rating feedback
        review_id created_at display_date).2.reviews := by
  have heq : submitReview db name email movie_id rating feedback review_id created_at
      display_date =
      (true,
        (updateUserStats
          (updateMovieStats
            { db with reviews := db.reviews ++
              [{ review_id := review_id, user_email := email, movie_id := movie_id,
                 name := name, rating := rating, feedback := feedback,
                 created_at := created_at, display_date := display_date }] } movie_id).2
          email).2) := by
    simp only [submitReview, haws, hrr, not_true, if_false, Bool.true_eq_false, ite_false]
  refine ⟨heq, ?_⟩
  rw [heq]
  simp only [updateUserStats_reviews_eq, updateMovieStats_reviews_eq]
  exact List.mem_append_right _ (List.mem_singleton.mpr rfl)

/-- A store where the review write succeeds but both stat recomputes
fail (movies and users tables unreachable). -/
def exDB9 : DB :=
  { awsAvailable := true, moviesReachable := false, usersReachable := false,
    reviewsReachable := true,
    movies := [ { movie_id := "m1", title := "A", genre := "Drama", release_year := 2024,
                  total_reviews := 0, avg_rating := 0, active := true } ],
    users := [ { email := "u@x.com", name := "U", total_reviews := 0, avg_rating := 0,
                 last_review_date := "", is_active := true } ],
    reviews := [] }

theorem submitReview_witness :
    submitReview exDB9 "U" "u@x.com" "m1" 5 "a wonderful drama" "rid-1" "t1" "d1" =
      (true,
        (updateUserStats
          (updateMovieStats
            { exDB9 with reviews := exDB9.reviews ++
              [{ review_id := "rid-1", user_email := "u@x.com", movie_id := "m1",
                 name := "U", rating := 5, feedback := "a wonderful drama",
                 created_at := "t1", display_date := "d1" }] } "m1").2
          "u@x.com").2) ∧
    { review_id := "rid-1", user_email := "u@x.com", movie_id := "m1", name := "U",
        rating := 5, feedback := "a wonderful drama", created_at := "t1",
        display_date := "d1" } ∈
      (submitReview exDB9 "U" "u@x.com" "m1" 5 "a wonderful drama" "rid-1" "t1" "d1").2.reviews ∧
    (updateMovieStats
        { exDB9 with reviews := exDB9.reviews ++
          [{ review_id := "rid-1", user_email := "u@x.com", movie_id := "m1",
             name := "U", rating := 5, feedback := "a wonderful drama",
             created_at := "t1", display_date := "d1" }] } "m1").1 = false := by
  have h := submitReview_recomputes_and_succeeds exDB9 "U" "u@x.com" "m1" 5
    "a wonderful drama" "rid-1" "t1" "d1" rfl rfl
  refine ⟨h.1, h.2, ?_⟩
  simp [updateMovieStats, exDB9]

/-! ### C10: the Unknown genre bucket -/

/-- The single catalog movie of `exDB10`. -/
def exM10 : Movie :=
  { movie_id := "m1", title := "A", genre := "Drama", release_year := 2024,
    total_reviews := 0, avg_rating := 0, active := true }

/-- Concrete healthy store: one active Drama movie, and one user review
of a movie id absent from the catalog. -/
def exDB10 : DB := DB.healthy
  [ exM10 ]
  []
  [ { review_id := "r1", user_email := "u@x.com", movie_id := "movie_999", name := "U",
      rating := 5, feedback := "rating a vanished movie", created_at := "2025-01-01T00:00:00",
      display_date := "2025-01-01" } ]

/-- C10: a review whose `movie_id` matches no movie of the catalog scan
is not genre-enriched, so its rating is attributed to the genre
`"Unknown"`; concretely (`exDB10`), the rating 5 of such a review lands
in the `"Unknown"` bucket and makes `"Unknown"` a favorite genre even
though no active movie carries that genre. -/
theorem unmatched_review_unknown_genre :
    (∀ (movies : List Movie) (r : Review),
      (∀ m ∈ movies, m.movie_id ≠ r.movie_id) → genreOf (enrich movies r) = "Unknown") ∧
    genreRatingsOf (getUserReviews exDB10 "u@x.com") "Unknown" = [5] ∧
    "Unknown" ∈ favoriteGenres (getUserReviews exDB10 "u@x.com") ∧
    (∀ m ∈ getAllMovies exDB10, m.genre ≠ "Unknown") := by
  refine ⟨?_, ?_, ?_, ?_⟩
  · intro movies r h
    have hf : movies.find? (fun m => r.movie_id == m.movie_id) = none := by
      rw [List.find?_eq_none]
      intro m hm
      simp only [beq_iff_eq]
      intro he
      exact h m hm he.symm
    simp [enrich, hf, genreOf]
  · decide
  · have hur : getUserReviews exDB10 "u@x.com" =
        [ { toReview :=
              { review_id := "r1", user_email := "u@x.com", movie_id := "movie_999",
                name := "U", rating := 5, feedback := "rating a vanished movie",
                created_at := "2025-01-01T00:00:00", display_date := "2025-01-01" },
            movie_genre := none, movie_title := none } ] := by decide
    rw [hur]
    have : (4 : ℚ) ≤ meanRating [5] := by
      norm_num [meanRating]
    simp [favoriteGenres, genreKeys, genreRatingsOf, genreOf, this]
  · decide

theorem unmatched_review_unknown_genre_witness :
    genreOf (enrich (getAllMovies exDB10)
      { review_id := "r1", user_email := "u@x.com", movie_id := "movie_999", name := "U",
        rating := 5, feedback := "rating a vanished movie",
        created_at := "2025-01-01T00:00:00", display_date := "2025-01-01" }) = "Unknown" ∧
    "Unknown" ∈ favoriteGenres (getUserReviews exDB10 "u@x.com") ∧
    exM10.genre ≠ "Unknown" := by
  have h := unmatched_review_unknown_genre
  refine ⟨h.1 (getAllMovies exDB10) _ (by decide), h.2.2.1, h.2.2.2 exM10 (by decide)⟩

end CinemaPulse
